import Mathlib

/-!
Shallow embedding of `autoclicker.py`, a small autoclicker utility.

Modelling conventions:
* Python `float` values (the CLI `--interval`/`--delay` flags and the
  `delay_s` field) are modelled as rationals `ℚ`; Python `int` as `Int`.
* `time.sleep` and the two `user32.mouse_event` calls are side effects; the
  click loop is modelled as a function producing the list of these external
  actions (`Action`) in order, plus the final value of `clicks_done` when the
  loop returns.  The `while` loop is given explicit fuel: a result of `none`
  means the loop was still running after `fuel` iterations.
* The stop event is modelled as a function `stop : Nat → Bool` giving the
  value observed by the `stop_event.is_set()` check of each iteration
  (indexed by `clicks_done` at the time of the check); `Action.check` marks
  the point in the trace where that check happens.
* Python `int(x)` on a float truncates toward zero; `pyInt` does the same on
  the rational model.
-/

deriving instance DecidableEq for Except

namespace Autoclicker

/-- The `ClickConfig` dataclass: `interval_ms : int`, `count : int`,
`button : str`, `delay_s : float = 0.0`. -/
structure ClickConfig where
  interval_ms : Int
  count : Int
  button : String
  delay_s : ℚ := 0
deriving DecidableEq

/-- `validate_config`: raises `ValueError` (modelled as `Except.error` with
the message) for `interval_ms <= 0`, then `delay_s < 0`, then `count < 0`;
otherwise returns `None` (modelled as `Except.ok ()`). -/
def validate_config (config : ClickConfig) : Except String Unit :=
  if config.interval_ms ≤ 0 then
    Except.error "Interval muss größer als 0 sein."
  else if config.delay_s < 0 then
    Except.error "Delay darf nicht negativ sein."
  else if config.count < 0 then
    Except.error "Count darf nicht negativ sein."
  else
    Except.ok ()

/-- `resolve_flags`: Windows API constants for mouse press/release, chosen by
the button string; every string other than `"left"` falls through to the
right-button pair. -/
def resolve_flags (button : String) : Int × Int :=
  let left_down : Int := 0x0002
  let left_up : Int := 0x0004
  let right_down : Int := 0x0008
  let right_up : Int := 0x0010
  if button = "left" then (left_down, left_up) else (right_down, right_up)

/-- The externally visible actions of the click loop, in program order:
the start-delay sleep, each `stop_event` check, each `user32.mouse_event`
call (with its flag argument), and each between-click interval sleep. -/
inductive Action where
  | sleepDelay (d : ℚ)
  | check
  | mouseEvent (flag : Int)
  | sleepInterval (s : ℚ)
deriving DecidableEq

/-- Whether an action is one of the two `user32.mouse_event` OS input calls. -/
def isMouseEvent : Action → Bool
  | Action.mouseEvent _ => true
  | _ => false

/-- The action sequence of one full loop iteration that emits a click:
the stop check (observed unset), the press event, the release event, and the
interval sleep. -/
def clickBlock (down up : Int) (interval_s : ℚ) : List Action :=
  [Action.check, Action.mouseEvent down, Action.mouseEvent up,
   Action.sleepInterval interval_s]

/-- The `while config.count == 0 or clicks_done < config.count` loop of
`run_click_loop`, starting from `clicks_done = n`, run for at most `fuel`
iterations.  Returns the trace of actions plus `some clicks_done` if the
loop returned within the fuel, `none` if it was still running. -/
def loopTrace (count : Int) (stop : Nat → Bool) (down up : Int)
    (interval_s : ℚ) : Nat → Nat → List Action × Option Nat
  | 0, _ => ([], none)
  | fuel + 1, n =>
    if count = 0 ∨ (n : Int) < count then
      if stop n then
        ([Action.check], some n)
      else
        let r := loopTrace count stop down up interval_s fuel (n + 1)
        (clickBlock down up interval_s ++ r.1, r.2)
    else
      ([], some n)

/-- `run_click_loop`: resolves the button flags, converts the interval to
seconds, sleeps the start delay if it is truthy (`delay_s ≠ 0`), then runs
the click loop from `clicks_done = 0`. -/
def run_click_loop (config : ClickConfig) (stop : Nat → Bool) (fuel : Nat) :
    List Action × Option Nat :=
  let flags := resolve_flags config.button
  let interval_s : ℚ := (config.interval_ms : ℚ) / 1000
  let pre : List Action :=
    if config.delay_s ≠ 0 then [Action.sleepDelay config.delay_s] else []
  let r := loopTrace config.count stop flags.1 flags.2 interval_s fuel 0
  (pre ++ r.1, r.2)

/-- Python `int()` applied to a rational: truncation toward zero.  Both
divisions below have non-negative operands, where Lean's integer division
agrees with truncation. -/
def pyInt (q : ℚ) : Int :=
  if 0 ≤ q.num then q.num / (q.den : Int) else -((-q.num) / (q.den : Int))

/-- The `ClickConfig` built by `main` from the parsed CLI flags:
`interval_ms = int(args.interval * 1000)`, the rest verbatim. -/
def cli_config_from_args (interval : ℚ) (count : Int) (button : String)
    (delay : ℚ) : ClickConfig :=
  { interval_ms := pyInt (interval * 1000)
    count := count
    button := button
    delay_s := delay }

/-- The effect of `main` up to and including the click loop, for a given
parsed argument vector.  `parser.error` (used both for the platform check
and, via `validate_config_cli`, for validation failures) aborts the process;
it is modelled as `Except.error` carrying the message.  On success the value
is the action trace of the run (`run_gui` itself emits no click before any
interaction, so the `--gui` branch contributes the empty trace). -/
def main_actions (platformSystem : String) (interval : ℚ) (count : Int)
    (button : String) (delay : ℚ) (gui : Bool) (stop : Nat → Bool)
    (fuel : Nat) : Except String (List Action) :=
  if platformSystem ≠ "Windows" then
    Except.error "Dieses Skript unterstützt nur Windows."
  else
    let config := cli_config_from_args interval count button delay
    match validate_config config with
    | Except.error e => Except.error e
    | Except.ok _ =>
      if gui then Except.ok []
      else Except.ok (run_click_loop config stop fuel).1

/-- State of the interactive form (`run_gui`): whether a worker thread is
alive, the shared stop flag, the status label, and the log of worker threads
launched so far (each with the config it was started with). -/
structure GuiState where
  workerAlive : Bool
  stopSet : Bool
  status : String
  spawned : List ClickConfig
deriving DecidableEq

/-- The `set_status` helper of `run_gui`. -/
def set_status (text : String) (s : GuiState) : GuiState :=
  { s with status := text }

/-- The `build_config` closure of `run_gui`.  The two `int(var.get())`
parses are passed in as their outcomes (`none` models a `ValueError`);
on parse failure or validation failure it sets the status and returns no
config. -/
def build_config (parsedInterval parsedCount : Option Int)
    (buttonVar : String) (s : GuiState) : Option ClickConfig × GuiState :=
  match parsedInterval, parsedCount with
  | some interval_ms, some count =>
    let config : ClickConfig :=
      { interval_ms := interval_ms
        count := count
        button := buttonVar
        delay_s := 0 }
    match validate_config config with
    | Except.error e => (none, set_status e s)
    | Except.ok _ => (some config, s)
  | _, _ => (none, set_status "Bitte gültige Zahlen eingeben." s)

/-- The `start_clicking` closure of `run_gui`: if a worker is alive it only
sets the status and returns; otherwise it builds and validates a config and,
on success, clears the stop event, sets the status, and launches a new
worker thread with that config. -/
def start_clicking (parsedInterval parsedCount : Option Int)
    (buttonVar : String) (s : GuiState) : GuiState :=
  if s.workerAlive then
    set_status "Autoclicker läuft bereits." s
  else
    match build_config parsedInterval parsedCount buttonVar s with
    | (none, s') => s'
    | (some config, s') =>
      { s' with
        stopSet := false
        status := "Läuft..."
        workerAlive := true
        spawned := s'.spawned ++ [config] }

/-- The `stop_clicking` closure of `run_gui`. -/
def stop_clicking (s : GuiState) : GuiState :=
  { s with stopSet := true, status := "Gestoppt" }

/-! ## Helper definitions and lemmas -/

/-- The concatenation of `k` full click iterations. -/
def blocksN (k : Nat) (down up : Int) (interval_s : ℚ) : List Action :=
  (List.replicate k (clickBlock down up interval_s)).join

theorem blocksN_succ (k : Nat) (down up : Int) (s : ℚ) :
    blocksN (k + 1) down up s = clickBlock down up s ++ blocksN k down up s :=
  rfl

theorem clickBlock_countP (down up : Int) (s : ℚ) :
    (clickBlock down up s).countP isMouseEvent = 2 := by
  simp [clickBlock, isMouseEvent, List.countP_cons]

theorem blocksN_countP (k : Nat) (down up : Int) (s : ℚ) :
    (blocksN k down up s).countP isMouseEvent = 2 * k := by
  induction k with
  | zero => rfl
  | succ k ih =>
    rw [blocksN_succ, List.countP_append, ih, clickBlock_countP]
    omega

theorem validate_config_ok_iff (c : ClickConfig) :
    validate_config c = Except.ok () ↔
      0 < c.interval_ms ∧ 0 ≤ c.delay_s ∧ 0 ≤ c.count := by
  unfold validate_config
  split_ifs with h1 h2 h3
  · simp only [reduceCtorEq, false_iff]
    intro h
    exact absurd h.1 (not_lt.mpr h1)
  · simp only [reduceCtorEq, false_iff]
    intro h
    exact absurd h2 (not_lt.mpr h.2.1)
  · simp only [reduceCtorEq, false_iff]
    intro h
    exact absurd h3 (not_lt.mpr h.2.2)
  · simp only [true_iff]
    exact ⟨lt_of_not_le h1, le_of_not_lt h2, le_of_not_lt h3⟩

theorem pyInt_pos_iff (q : ℚ) : 0 < pyInt q ↔ 1 ≤ q := by
  unfold pyInt
  split_ifs with h
  · rw [← Rat.floor_def]
    constructor
    · intro h1
      have h2 : (1 : Int) ≤ ⌊q⌋ := by omega
      have h3 := Int.le_floor.mp h2
      exact_mod_cast h3
    · intro h1
      have h2 : (1 : Int) ≤ ⌊q⌋ := Int.le_floor.mpr (by exact_mod_cast h1)
      omega
  · push_neg at h
    have hq : q < 0 := by
      by_contra hq'
      push_neg at hq'
      exact absurd (Rat.num_nonneg.mpr hq') (not_le.mpr h)
    have hx : (0 : Int) ≤ (-q.num) / (q.den : Int) :=
      Int.ediv_nonneg (by omega) (by positivity)
    constructor
    · intro h1
      linarith
    · intro h1
      linarith

theorem loopTrace_stop_not_set (N : Nat) (stop : Nat → Bool) (down up : Int)
    (s : ℚ) (hN : 0 < N) (hstop : ∀ i, i < N → stop i = false) :
    ∀ (k n fuel : Nat), n + k = N → k < fuel →
      loopTrace (N : Int) stop down up s fuel n = (blocksN k down up s, some N) := by
  intro k
  induction k with
  | zero =>
    intro n fuel hn hf
    obtain ⟨f, rfl⟩ : ∃ f, fuel = f + 1 := ⟨fuel - 1, by omega⟩
    have hn' : n = N := by omega
    subst hn'
    simp only [loopTrace]
    rw [if_neg (by omega)]
    rfl
  | succ k ih =>
    intro n fuel hn hf
    obtain ⟨f, rfl⟩ : ∃ f, fuel = f + 1 := ⟨fuel - 1, by omega⟩
    have hlt : n < N := by omega
    simp only [loopTrace]
    rw [if_pos (by omega), hstop n hlt]
    simp only [Bool.false_eq_true, if_false]
    rw [ih (n + 1) f (by omega) (by omega)]
    rfl

theorem loopTrace_zero_first_set (stop : Nat → Bool) (down up : Int) (s : ℚ)
    (k : Nat) (hk : stop k = true) (hbefore : ∀ i, i < k → stop i = false) :
    ∀ (j n fuel : Nat), n + j = k → j < fuel →
      loopTrace 0 stop down up s fuel n =
        (blocksN j down up s ++ [Action.check], some k) := by
  intro j
  induction j with
  | zero =>
    intro n fuel hn hf
    obtain ⟨f, rfl⟩ : ∃ f, fuel = f + 1 := ⟨fuel - 1, by omega⟩
    have hn' : n = k := by omega
    subst hn'
    simp only [loopTrace]
    rw [if_pos (Or.inl trivial), hk, if_pos rfl]
    rfl
  | succ j ih =>
    intro n fuel hn hf
    obtain ⟨f, rfl⟩ : ∃ f, fuel = f + 1 := ⟨fuel - 1, by omega⟩
    have hlt : n < k := by omega
    simp only [loopTrace]
    rw [if_pos (Or.inl trivial), hbefore n hlt]
    simp only [Bool.false_eq_true, if_false]
    rw [ih (n + 1) f (by omega) (by omega)]
    rfl

theorem loopTrace_zero_running (stop : Nat → Bool) (down up : Int) (s : ℚ) :
    ∀ (m n : Nat), (∀ i, n ≤ i → i < n + m → stop i = false) →
      loopTrace 0 stop down up s m n = (blocksN m down up s, none) := by
  intro m
  induction m with
  | zero => intro n _; rfl
  | succ m ih =>
    intro n hstop
    simp only [loopTrace]
    rw [if_pos (Or.inl trivial), hstop n (le_refl n) (by omega)]
    simp only [Bool.false_eq_true, if_false]
    rw [ih (n + 1) (fun i h1 h2 => hstop i (by omega) (by omega))]
    rfl

theorem loopTrace_shape (count : Int) (stop : Nat → Bool) (down up : Int)
    (s : ℚ) : ∀ (fuel n : Nat), ∃ k tail,
      (loopTrace count stop down up s fuel n).1 = blocksN k down up s ++ tail ∧
        (tail = [] ∨ tail = [Action.check]) := by
  intro fuel
  induction fuel with
  | zero => exact fun n => ⟨0, [], rfl, Or.inl rfl⟩
  | succ fuel ih =>
    intro n
    simp only [loopTrace]
    by_cases hcond : count = 0 ∨ (n : Int) < count
    · rw [if_pos hcond]
      by_cases hstop : stop n
      · rw [if_pos hstop]
        exact ⟨0, [Action.check], rfl, Or.inr rfl⟩
      · rw [if_neg hstop]
        obtain ⟨k, tail, htr, ht⟩ := ih (n + 1)
        refine ⟨k + 1, tail, ?_, ht⟩
        show clickBlock down up s ++ (loopTrace count stop down up s fuel (n + 1)).1 =
          blocksN (k + 1) down up s ++ tail
        rw [htr, blocksN_succ, List.append_assoc]
    · rw [if_neg hcond]
      exact ⟨0, [], rfl, Or.inl rfl⟩

theorem sleepDelay_not_mem_clickBlock (down up : Int) (s d : ℚ) :
    Action.sleepDelay d ∉ clickBlock down up s := by
  simp [clickBlock]

theorem sleepDelay_not_mem_blocksN (k : Nat) (down up : Int) (s d : ℚ) :
    Action.sleepDelay d ∉ blocksN k down up s := by
  intro h
  rw [blocksN, List.mem_join] at h
  obtain ⟨l, hl, hm⟩ := h
  rw [List.mem_replicate] at hl
  rw [hl.2] at hm
  exact sleepDelay_not_mem_clickBlock down up s d hm

/-! ## Claims -/

/-- C1: `validate_config` fails (with an error naming the offending field)
if and only if `interval_ms ≤ 0`, `delay_s < 0`, or `count < 0`; on every
other config it returns silently.  The embedding is a pure function, so the
config is unchanged and there is no other effect. -/
theorem C1_validate_config_correct (c : ClickConfig) :
    (validate_config c = Except.ok () ↔
      ¬(c.interval_ms ≤ 0 ∨ c.delay_s < 0 ∨ c.count < 0)) ∧
    (c.interval_ms ≤ 0 →
      validate_config c = Except.error "Interval muss größer als 0 sein.") ∧
    (0 < c.interval_ms → c.delay_s < 0 →
      validate_config c = Except.error "Delay darf nicht negativ sein.") ∧
    (0 < c.interval_ms → 0 ≤ c.delay_s → c.count < 0 →
      validate_config c = Except.error "Count darf nicht negativ sein.") := by
  refine ⟨?_, ?_, ?_, ?_⟩
  · rw [validate_config_ok_iff]
    push_neg
    rfl
  · intro h1
    unfold validate_config
    rw [if_pos h1]
  · intro h1 h2
    unfold validate_config
    rw [if_neg (not_le.mpr h1), if_pos h2]
  · intro h1 h2 h3
    unfold validate_config
    rw [if_neg (not_le.mpr h1), if_neg (not_lt.mpr h2), if_pos h3]

/-- Witness for C1 at concrete configs: each offending field produces its
error, and a fully valid config passes. -/
theorem C1_validate_config_correct_witness :
    validate_config { interval_ms := 0, count := 0, button := "left", delay_s := 0 } =
      Except.error "Interval muss größer als 0 sein." ∧
    validate_config { interval_ms := 1, count := 0, button := "left", delay_s := -1 } =
      Except.error "Delay darf nicht negativ sein." ∧
    validate_config { interval_ms := 1, count := -1, button := "left", delay_s := 0 } =
      Except.error "Count darf nicht negativ sein." ∧
    validate_config { interval_ms := 100, count := 5, button := "left", delay_s := 0 } =
      Except.ok () :=
  ⟨(C1_validate_config_correct _).2.1 (by decide),
   (C1_validate_config_correct _).2.2.1 (by decide) (by decide),
   (C1_validate_config_correct _).2.2.2 (by decide) (by decide) (by decide),
   (C1_validate_config_correct _).1.mpr (by decide)⟩

/-- C4 counterexample: the CLI flag `--interval 0.0005` is strictly positive
(with delay `0 ≥ 0` and count `0 ≥ 0`), yet the built config fails
validation, because `int(0.0005 * 1000) = int(0.5)` truncates to `0`. -/
theorem C4_counterexample_subms_interval :
    (0 < (1 / 2000 : ℚ) ∧ (0 : ℚ) ≤ 0 ∧ (0 : Int) ≤ 0) ∧
    validate_config (cli_config_from_args (1 / 2000) 0 "left" 0) ≠
      Except.ok () ∧
    validate_config (cli_config_from_args (1 / 2000) 0 "left" 0) =
      Except.error "Interval muss größer als 0 sein." := by
  have h2 : pyInt ((1 / 2000 : ℚ) * 1000) ≤ 0 := by
    by_contra hc
    push_neg at hc
    have h3 := (pyInt_pos_iff ((1 / 2000 : ℚ) * 1000)).mp hc
    norm_num at h3
  have herr : validate_config (cli_config_from_args (1 / 2000) 0 "left" 0) =
      Except.error "Interval muss größer als 0 sein." := by
    unfold validate_config cli_config_from_args
    rw [if_pos h2]
  refine ⟨by norm_num, ?_, herr⟩
  rw [herr]
  simp

/-- C4 amended: the config built by the CLI passes validation iff
`interval ≥ 0.001` seconds (so that the truncating seconds→milliseconds
conversion yields a positive `interval_ms`), `delay ≥ 0`, and `count ≥ 0`.
In particular a strictly positive interval below one millisecond is
rejected. -/
theorem C4_cli_validation_amended (interval delay : ℚ) (count : Int)
    (button : String) :
    validate_config (cli_config_from_args interval count button delay) =
        Except.ok () ↔
      (1 / 1000 : ℚ) ≤ interval ∧ 0 ≤ delay ∧ 0 ≤ count := by
  rw [validate_config_ok_iff]
  simp only [cli_config_from_args]
  rw [pyInt_pos_iff, div_le_iff₀ (by norm_num : (0 : ℚ) < 1000)]

/-- The click actions actually emitted by a `main` invocation: none on the
aborting (`parser.error`) path. -/
def emitted_actions : Except String (List Action) → List Action
  | Except.ok t => t
  | Except.error _ => []

/-- C2: a valid config with `count = N > 0` and the stop signal never set
during the run produces exactly the start-delay sleep followed by `N` full
click iterations (so `2 * N` OS input events), and the loop returns with
`clicks_done = N`. -/
theorem C2_bounded_count_clicks (c : ClickConfig) (stop : Nat → Bool)
    (N fuel : Nat) (hvalid : validate_config c = Except.ok ())
    (hcount : c.count = (N : Int)) (hN : 0 < N) (hfuel : N < fuel)
    (hstop : ∀ i, i < N → stop i = false) :
    run_click_loop c stop fuel =
      ((if c.delay_s ≠ 0 then [Action.sleepDelay c.delay_s] else []) ++
        blocksN N (resolve_flags c.button).1 (resolve_flags c.button).2
          ((c.interval_ms : ℚ) / 1000), some N) ∧
    (run_click_loop c stop fuel).1.countP isMouseEvent = 2 * N := by
  have hloop := loopTrace_stop_not_set N stop (resolve_flags c.button).1
    (resolve_flags c.button).2 ((c.interval_ms : ℚ) / 1000) hN hstop N 0 fuel
    (by omega) hfuel
  have hrun : run_click_loop c stop fuel =
      ((if c.delay_s ≠ 0 then [Action.sleepDelay c.delay_s] else []) ++
        blocksN N (resolve_flags c.button).1 (resolve_flags c.button).2
          ((c.interval_ms : ℚ) / 1000), some N) := by
    simp only [run_click_loop]
    rw [hcount, hloop]
  refine ⟨hrun, ?_⟩
  rw [hrun]
  simp only [List.countP_append, blocksN_countP]
  split_ifs <;> simp [isMouseEvent, List.countP_cons, List.countP_nil]

/-- Witness for C2: `interval_ms = 100`, `count = 3`, stop never set.  The
config is valid, the loop emits `6 = 2 * 3` OS input events, and it returns
with `clicks_done = 3`. -/
theorem C2_bounded_count_clicks_witness :
    validate_config { interval_ms := 100, count := 3, button := "left", delay_s := 0 } =
      Except.ok () ∧
    (run_click_loop { interval_ms := 100, count := 3, button := "left", delay_s := 0 }
      (fun _ => false) 4).1.countP isMouseEvent = 6 ∧
    (run_click_loop { interval_ms := 100, count := 3, button := "left", delay_s := 0 }
      (fun _ => false) 4).2 = some 3 := by
  have h := C2_bounded_count_clicks
    { interval_ms := 100, count := 3, button := "left", delay_s := 0 }
    (fun _ => false) 3 4 (by decide) rfl (by decide) (by decide) (fun i _ => rfl)
  refine ⟨by decide, by simpa using h.2, ?_⟩
  rw [h.1]

/-- C3: for a valid config with `count = 0` the loop runs until cancelled.
If the stop signal is first observed set at check `k` (and unset at every
earlier check), the trace is the start-delay sleep, then exactly `k` full
iterations (each one: stop check, press, release, interval sleep), then one
final stop check after which the loop returns immediately with no further
emission or sleep — so at most the single in-flight interval sleep separates
the signal from the return.  If the signal is unset at the first `m` checks,
the loop is still running after `m` full iterations, for every `m`. -/
theorem C3_unbounded_cancellation (c : ClickConfig)
    (hvalid : validate_config c = Except.ok ()) (hcount : c.count = 0) :
    (∀ (stop : Nat → Bool) (k fuel : Nat), stop k = true →
      (∀ i, i < k → stop i = false) → k < fuel →
      run_click_loop c stop fuel =
        ((if c.delay_s ≠ 0 then [Action.sleepDelay c.delay_s] else []) ++
          (blocksN k (resolve_flags c.button).1 (resolve_flags c.button).2
            ((c.interval_ms : ℚ) / 1000) ++ [Action.check]), some k)) ∧
    (∀ (stop : Nat → Bool) (m : Nat), (∀ i, i < m → stop i = false) →
      run_click_loop c stop m =
        ((if c.delay_s ≠ 0 then [Action.sleepDelay c.delay_s] else []) ++
          blocksN m (resolve_flags c.button).1 (resolve_flags c.button).2
            ((c.interval_ms : ℚ) / 1000), none)) := by
  constructor
  · intro stop k fuel hk hbefore hfuel
    have hloop := loopTrace_zero_first_set stop (resolve_flags c.button).1
      (resolve_flags c.button).2 ((c.interval_ms : ℚ) / 1000) k hk hbefore k 0
      fuel (by omega) hfuel
    simp only [run_click_loop]
    rw [hcount, hloop]
  · intro stop m hstop
    have hloop := loopTrace_zero_running stop (resolve_flags c.button).1
      (resolve_flags c.button).2 ((c.interval_ms : ℚ) / 1000) m 0
      (fun i h1 h2 => hstop i (by omega))
    simp only [run_click_loop]
    rw [hcount, hloop]

/-- Witness for C3: `count = 0`, stop signal first set at check 2.  The loop
emits `4 = 2 * 2` OS input events, returns with `clicks_done = 2`, and the
last action of the trace is the stop check that observed the signal. -/
theorem C3_unbounded_cancellation_witness :
    (run_click_loop { interval_ms := 100, count := 0, button := "right", delay_s := 0 }
      (fun n => decide (2 ≤ n)) 3).1.countP isMouseEvent = 4 ∧
    (run_click_loop { interval_ms := 100, count := 0, button := "right", delay_s := 0 }
      (fun n => decide (2 ≤ n)) 3).2 = some 2 ∧
    (run_click_loop { interval_ms := 100, count := 0, button := "right", delay_s := 0 }
      (fun n => decide (2 ≤ n)) 3).1.getLast? = some Action.check := by
  have h := (C3_unbounded_cancellation
    { interval_ms := 100, count := 0, button := "right", delay_s := 0 }
    (by decide) rfl).1 (fun n => decide (2 ≤ n)) 2 3 rfl (by decide) (by decide)
  refine ⟨?_, ?_, ?_⟩
  · rw [h]
    simp [List.countP_append, blocksN_countP, isMouseEvent]
  · rw [h]
  · rw [h]
    simp

/-- C5: whenever the built config fails validation, `main` aborts through
`parser.error` (modelled as `Except.error`) and no `mouse_event` OS input
call is emitted. -/
theorem C5_invalid_config_no_click (platformSystem : String) (interval : ℚ)
    (count : Int) (button : String) (delay : ℚ) (gui : Bool)
    (stop : Nat → Bool) (fuel : Nat)
    (hinvalid : validate_config (cli_config_from_args interval count button delay) ≠
      Except.ok ()) :
    (∃ e, main_actions platformSystem interval count button delay gui stop fuel =
      Except.error e) ∧
    (emitted_actions (main_actions platformSystem interval count button delay gui
      stop fuel)).countP isMouseEvent = 0 := by
  rcases hv : validate_config (cli_config_from_args interval count button delay)
    with e | u
  · simp only [main_actions]
    rw [hv]
    split_ifs with hp <;> exact ⟨⟨_, rfl⟩, rfl⟩
  · cases u
    exact absurd hv hinvalid

/-- Witness for C5: invoking with `count = -1` on Windows is rejected with
an error and zero OS input calls. -/
theorem C5_invalid_config_no_click_witness :
    (∃ e, main_actions "Windows" (1 / 10) (-1) "left" 0 false (fun _ => false) 5 =
      Except.error e) ∧
    (emitted_actions (main_actions "Windows" (1 / 10) (-1) "left" 0 false
      (fun _ => false) 5)).countP isMouseEvent = 0 := by
  refine C5_invalid_config_no_click "Windows" (1 / 10) (-1) "left" 0 false
    (fun _ => false) 5 ?_
  intro h
  have h2 := (validate_config_ok_iff _).mp h
  simp only [cli_config_from_args] at h2
  omega

/-- C6: for a valid config, if the start delay is nonzero the very first
action of the click loop is the start-delay sleep (so no click event occurs
before it); if the delay is zero, no start-delay sleep occurs anywhere in
the run. -/
theorem C6_start_delay_first (c : ClickConfig) (stop : Nat → Bool) (fuel : Nat)
    (hvalid : validate_config c = Except.ok ()) :
    (c.delay_s ≠ 0 → ∃ rest, (run_click_loop c stop fuel).1 =
      Action.sleepDelay c.delay_s :: rest) ∧
    (c.delay_s = 0 → ∀ d, Action.sleepDelay d ∉ (run_click_loop c stop fuel).1) := by
  constructor
  · intro hd
    refine ⟨(loopTrace c.count stop (resolve_flags c.button).1
      (resolve_flags c.button).2 ((c.interval_ms : ℚ) / 1000) fuel 0).1, ?_⟩
    simp only [run_click_loop]
    rw [if_pos hd]
    rfl
  · intro hd d
    simp only [run_click_loop]
    rw [if_neg (by rw [hd]; exact fun h => h rfl)]
    obtain ⟨k, tail, htr, ht⟩ := loopTrace_shape c.count stop
      (resolve_flags c.button).1 (resolve_flags c.button).2
      ((c.interval_ms : ℚ) / 1000) fuel 0
    rw [List.nil_append, htr]
    intro hmem
    rcases List.mem_append.mp hmem with h1 | h2
    · exact sleepDelay_not_mem_blocksN _ _ _ _ _ h1
    · rcases ht with rfl | rfl
      · exact absurd h2 (List.not_mem_nil _)
      · simp at h2

/-- Witness for C6: with delay 2 the first trace action is the delay sleep;
with delay 0 no delay sleep occurs in the trace. -/
theorem C6_start_delay_first_witness :
    (run_click_loop { interval_ms := 100, count := 1, button := "left", delay_s := 2 }
      (fun _ => false) 2).1.head? = some (Action.sleepDelay 2) ∧
    Action.sleepDelay 5 ∉
      (run_click_loop { interval_ms := 100, count := 1, button := "left", delay_s := 0 }
        (fun _ => false) 2).1 := by
  constructor
  · obtain ⟨rest, hrest⟩ := (C6_start_delay_first
      { interval_ms := 100, count := 1, button := "left", delay_s := 2 }
      (fun _ => false) 2 (by decide)).1 (by norm_num)
    rw [hrest]
    rfl
  · exact (C6_start_delay_first
      { interval_ms := 100, count := 1, button := "left", delay_s := 0 }
      (fun _ => false) 2 (by decide)).2 rfl 5

/-- C7: the button choice maps to the Windows event-code pairs
`left ↦ (0x0002, 0x0004)` and `right ↦ (0x0008, 0x0010)`, and every run of
the click loop is the optional start-delay sleep followed by whole click
iterations — each one exactly a stop check, a press `mouse_event`, a release
`mouse_event`, and an interval sleep — possibly ending in one final stop
check. -/
theorem C7_press_release_codes :
    resolve_flags "left" = (0x0002, 0x0004) ∧
    resolve_flags "right" = (0x0008, 0x0010) ∧
    ∀ (c : ClickConfig) (stop : Nat → Bool) (fuel : Nat), ∃ k tail,
      (run_click_loop c stop fuel).1 =
        (if c.delay_s ≠ 0 then [Action.sleepDelay c.delay_s] else []) ++
          (blocksN k (resolve_flags c.button).1 (resolve_flags c.button).2
            ((c.interval_ms : ℚ) / 1000) ++ tail) ∧
        (tail = [] ∨ tail = [Action.check]) := by
  refine ⟨rfl, rfl, ?_⟩
  intro c stop fuel
  obtain ⟨k, tail, htr, ht⟩ := loopTrace_shape c.count stop
    (resolve_flags c.button).1 (resolve_flags c.button).2
    ((c.interval_ms : ℚ) / 1000) fuel 0
  refine ⟨k, tail, ?_, ht⟩
  simp only [run_click_loop]
  rw [htr]

/-- C8: the `start_clicking` handler with a live worker only updates the
status label: no new worker is launched, the stop flag is untouched, and the
worker stays as it was. -/
theorem C8_single_worker (parsedInterval parsedCount : Option Int)
    (buttonVar : String) (s : GuiState) (halive : s.workerAlive = true) :
    start_clicking parsedInterval parsedCount buttonVar s =
      { s with status := "Autoclicker läuft bereits." } ∧
    (start_clicking parsedInterval parsedCount buttonVar s).spawned = s.spawned ∧
    (start_clicking parsedInterval parsedCount buttonVar s).stopSet = s.stopSet ∧
    (start_clicking parsedInterval parsedCount buttonVar s).workerAlive = true := by
  have h : start_clicking parsedInterval parsedCount buttonVar s =
      { s with status := "Autoclicker läuft bereits." } := by
    unfold start_clicking
    rw [if_pos halive]
    rfl
  exact ⟨h, by rw [h], by rw [h], by rw [h]; exact halive⟩

/-- Witness for C8 at a concrete live-worker state. -/
theorem C8_single_worker_witness :
    start_clicking (some 50) (some 2) "left"
        { workerAlive := true, stopSet := false, status := "Läuft...",
          spawned := [{ interval_ms := 100, count := 0, button := "left", delay_s := 0 }] } =
      { workerAlive := true, stopSet := false, status := "Autoclicker läuft bereits.",
        spawned := [{ interval_ms := 100, count := 0, button := "left", delay_s := 0 }] } :=
  (C8_single_worker (some 50) (some 2) "left"
    { workerAlive := true, stopSet := false, status := "Läuft...",
      spawned := [{ interval_ms := 100, count := 0, button := "left", delay_s := 0 }] }
    rfl).1

/-- C9: `validate_config` never inspects the `button` field, and
`resolve_flags` sends every string other than `"left"` to the right-button
event codes — so a config with an arbitrary button string validates exactly
like the same config with any other button, and clicks as the right
button. -/
theorem C9_button_ignored :
    (∀ (c : ClickConfig) (b : String),
      validate_config { c with button := b } = validate_config c) ∧
    (∀ b : String, b ≠ "left" → resolve_flags b = (0x0008, 0x0010)) := by
  constructor
  · intro c b
    rfl
  · intro b hb
    unfold resolve_flags
    rw [if_neg hb]

/-- Witness for C9: the out-of-set button string `"middle"` passes
validation (with otherwise valid fields) and resolves to the right-button
codes. -/
theorem C9_button_ignored_witness :
    validate_config { interval_ms := 100, count := 5, button := "middle", delay_s := 0 } =
      Except.ok () ∧
    resolve_flags "middle" = (0x0008, 0x0010) := by
  constructor
  · exact (C9_button_ignored.1
      { interval_ms := 100, count := 5, button := "left", delay_s := 0 }
      "middle").trans (by decide)
  · exact C9_button_ignored.2 "middle" (by decide)

/-- C10: if the stop signal is already set at the first check, the loop
emits zero OS input events and returns with `clicks_done = 0`; when the loop
condition admits an iteration (`count = 0` or `count > 0`) the whole trace is
just the optional start-delay sleep followed by the single observing stop
check. -/
theorem C10_stop_preset_no_click (c : ClickConfig) (stop : Nat → Bool)
    (fuel : Nat) (hstop : stop 0 = true) (hfuel : 0 < fuel) :
    (run_click_loop c stop fuel).1.countP isMouseEvent = 0 ∧
    (run_click_loop c stop fuel).2 = some 0 ∧
    ((c.count = 0 ∨ 0 < c.count) →
      run_click_loop c stop fuel =
        ((if c.delay_s ≠ 0 then [Action.sleepDelay c.delay_s] else []) ++
          [Action.check], some 0)) := by
  obtain ⟨f, rfl⟩ : ∃ f, fuel = f + 1 := ⟨fuel - 1, by omega⟩
  simp only [run_click_loop, loopTrace, Nat.cast_zero]
  by_cases hc : c.count = 0 ∨ (0 : Int) < c.count
  · rw [if_pos hc, hstop, if_pos rfl]
    refine ⟨?_, rfl, fun _ => rfl⟩
    rw [List.countP_append]
    split_ifs <;> rfl
  · rw [if_neg hc]
    refine ⟨?_, rfl, fun h => absurd h hc⟩
    rw [List.countP_append]
    split_ifs <;> rfl

/-- Witness for C10: a pre-set stop signal with `count = 5` yields a single
observing check, zero clicks, and an immediate return. -/
theorem C10_stop_preset_no_click_witness :
    run_click_loop { interval_ms := 100, count := 5, button := "left", delay_s := 0 }
      (fun _ => true) 1 = ([Action.check], some 0) := by
  have h := C10_stop_preset_no_click
    { interval_ms := 100, count := 5, button := "left", delay_s := 0 }
    (fun _ => true) 1 rfl (by decide)
  have h3 := h.2.2 (Or.inr (by decide))
  simpa using h3

end Autoclicker
